import Mathlib

/-!
# grustyvman viewer: view-state synchronisation of `spice_helpers.c`

A shallow embedding of the C file `viewer/src/spice_helpers.c`.

* The `GrvViewer` struct becomes a record.  Each GTK widget the struct points to is
  represented by the part of its state the C code reads or writes: the window by its
  title, the stack by the name of its visible child, the two status labels by their text,
  the toolbar by its visibility.
* A C string is the list of its characters before the terminating NUL; a nullable
  pointer is an `Option`.
* Objects of the SPICE client library (sessions, displays, channels) carry an object
  identity `id`; the library-side state the C code reads (the `agent-connected` property
  of a channel), the object allocator and the trace of calls issued to the library and to
  the GLib main loop live in `Lib`.
* Signal handlers are functions; the notifications that trigger them are delivered by
  the main loop as separate steps (`Op`, `step`). The one signal the library emits inside
  a call the C code makes, `channel-new` inside `spice_session_connect`, runs its handler
  before that call returns; which channels the library announces there is a parameter of
  the library state.
-/

namespace Grv

/-! ## C strings and the GLib string helpers -/

/-- A C string: the characters before the terminating NUL. -/
abbrev CStr := List Char

/-- GLib `g_str_has_suffix (str, suffix)`: compares the last `strlen (suffix)`
characters of `str` with `suffix`; false when `str` is shorter than `suffix`. -/
def g_str_has_suffix (str suffix : CStr) : Bool :=
  if str.length < suffix.length then false
  else decide (str.drop (str.length - suffix.length) = suffix)

/-- GLib `g_strndup (str, n)`: the first `n` characters of `str`. -/
def g_strndup (str : CStr) (n : Nat) : CStr := str.take n

/-- The literal `" [Powered Off]"` used by `show_powered_off` and `show_display`. -/
def POWERED_OFF_SUFFIX : CStr := " [Powered Off]".toList

/-! ## Action IDs -/

def GRV_ACTION_POWER_ON : Int := 0
def GRV_ACTION_PAUSE : Int := 1
def GRV_ACTION_RESUME : Int := 2
def GRV_ACTION_SHUTDOWN : Int := 3
def GRV_ACTION_REBOOT : Int := 4
def GRV_ACTION_FORCE_STOP : Int := 5
def GRV_ACTION_FORCE_REBOOT : Int := 6

/-! ## Library types -/

/-- Values of the library enum `SpiceChannelEvent` (spice-client-glib, `spice-channel.h`):
`NONE = 0, OPENED = 10, SWITCHING, CLOSED, ERROR_CONNECT = 20, ERROR_TLS, ERROR_LINK,
ERROR_AUTH, ERROR_IO`. An event is handled by its integer code. -/
def SPICE_CHANNEL_NONE : Int := 0
def SPICE_CHANNEL_OPENED : Int := 10
def SPICE_CHANNEL_SWITCHING : Int := 11
def SPICE_CHANNEL_CLOSED : Int := 12
def SPICE_CHANNEL_ERROR_CONNECT : Int := 20
def SPICE_CHANNEL_ERROR_TLS : Int := 21
def SPICE_CHANNEL_ERROR_LINK : Int := 22
def SPICE_CHANNEL_ERROR_AUTH : Int := 23
def SPICE_CHANNEL_ERROR_IO : Int := 24

/-- A `SpiceSession` object: identity and the properties set on it. -/
structure SpiceSession where
  id : Nat
  host : Option CStr
  port : Option CStr
  password : Option CStr
deriving DecidableEq, Repr

/-- A `SpiceDisplay` widget: identity, the session it was created for, its two
preferences (`scaling`, `resize-guest`) and its current GTK allocation. -/
structure SpiceDisplay where
  id : Nat
  session : Nat
  scaling : Bool
  resize_guest : Bool
  alloc_width : Int
  alloc_height : Int
deriving DecidableEq, Repr

/-- A `SpiceChannel *`: identity and whether `SPICE_IS_MAIN_CHANNEL` holds of it. -/
structure SpiceChannel where
  id : Nat
  is_main : Bool
deriving DecidableEq, Repr

/-- The two named children of the `GtkStack`: `"display"` and `"powered-off"`. -/
inductive Page where
  | display
  | powered_off
deriving DecidableEq, Repr

/-- The `GrvViewer` struct. -/
structure GrvViewer where
  /-- title of `window` (`gtk_window_get_title`; `none` when no title is set) -/
  window_title : Option CStr
  display : Option SpiceDisplay
  session : Option SpiceSession
  /-- current main channel, NULL until connected -/
  main_channel : Option SpiceChannel
  /-- visibility of `toolbar` -/
  toolbar_visible : Bool
  /-- visible child of `stack` -/
  stack_page : Page
  /-- text of the `status_title` label on the powered-off page -/
  status_title : CStr
  /-- text of the `status_sub` label on the powered-off page -/
  status_sub : CStr
  fullscreen : Bool
  /-- the function pointer `action_fn` (`none` is NULL) -/
  action_fn : Option Nat
  action_data : Nat
deriving DecidableEq, Repr

/-! ## Show the powered-off / error status page -/

def show_powered_off (v : GrvViewer) (title_text sub_text : CStr) : GrvViewer :=
  let v1 := { v with status_title := title_text, status_sub := sub_text,
                     stack_page := Page.powered_off }
  match v1.window_title with
  | some cur =>
    if !g_str_has_suffix cur POWERED_OFF_SUFFIX then
      { v1 with window_title := some (cur ++ POWERED_OFF_SUFFIX) }
    else v1
  | none => v1

def show_display (v : GrvViewer) : GrvViewer :=
  let v1 := { v with stack_page := Page.display }
  match v1.window_title with
  | some cur =>
    let suffix := POWERED_OFF_SUFFIX
    let cur_len := cur.length
    let suffix_len := suffix.length
    if cur_len > suffix_len && g_str_has_suffix cur suffix then
      { v1 with window_title := some (g_strndup cur (cur_len - suffix_len)) }
    else v1
  | none => v1

/-! ## SPICE channel disconnect detection -/

def on_channel_event (channel : SpiceChannel) (event : Int) (v : GrvViewer) : GrvViewer :=
  if !channel.is_main then v
  else if event = SPICE_CHANNEL_OPENED then show_display v
  else if event = SPICE_CHANNEL_CLOSED then
    show_powered_off v "VM Powered Off".toList "The virtual machine has stopped.".toList
  else if event ≥ SPICE_CHANNEL_ERROR_CONNECT then
    show_powered_off v "Connection Lost".toList "The SPICE connection was interrupted.".toList
  else v

/-! ## Key-combo table -/

def GDK_KEY_BackSpace : Nat := 0xff08
def GDK_KEY_Print : Nat := 0xff61
def GDK_KEY_F1 : Nat := 0xffbe
def GDK_KEY_F2 : Nat := 0xffbf
def GDK_KEY_F3 : Nat := 0xffc0
def GDK_KEY_F4 : Nat := 0xffc1
def GDK_KEY_F5 : Nat := 0xffc2
def GDK_KEY_F6 : Nat := 0xffc3
def GDK_KEY_F7 : Nat := 0xffc4
def GDK_KEY_F11 : Nat := 0xffc8
def GDK_KEY_Control_L : Nat := 0xffe3
def GDK_KEY_Alt_L : Nat := 0xffe9
def GDK_KEY_Delete : Nat := 0xffff

/-- The struct `GrvKeyCombo`; `keyvals` is the array `guint keyvals[4]`, the slots the
initialiser leaves out being zero. -/
structure GrvKeyCombo where
  label : CStr
  keyvals : List Nat
  nkeys : Int
deriving DecidableEq, Repr

def KEY_COMBOS : List GrvKeyCombo := [
  { label := "Ctrl+Alt+Del".toList,
    keyvals := [GDK_KEY_Control_L, GDK_KEY_Alt_L, GDK_KEY_Delete, 0], nkeys := 3 },
  { label := "Ctrl+Alt+Backspace".toList,
    keyvals := [GDK_KEY_Control_L, GDK_KEY_Alt_L, GDK_KEY_BackSpace, 0], nkeys := 3 },
  { label := "Ctrl+Alt+F1 (TTY 1)".toList,
    keyvals := [GDK_KEY_Control_L, GDK_KEY_Alt_L, GDK_KEY_F1, 0], nkeys := 3 },
  { label := "Ctrl+Alt+F2 (TTY 2)".toList,
    keyvals := [GDK_KEY_Control_L, GDK_KEY_Alt_L, GDK_KEY_F2, 0], nkeys := 3 },
  { label := "Ctrl+Alt+F3 (TTY 3)".toList,
    keyvals := [GDK_KEY_Control_L, GDK_KEY_Alt_L, GDK_KEY_F3, 0], nkeys := 3 },
  { label := "Ctrl+Alt+F4 (TTY 4)".toList,
    keyvals := [GDK_KEY_Control_L, GDK_KEY_Alt_L, GDK_KEY_F4, 0], nkeys := 3 },
  { label := "Ctrl+Alt+F5 (TTY 5)".toList,
    keyvals := [GDK_KEY_Control_L, GDK_KEY_Alt_L, GDK_KEY_F5, 0], nkeys := 3 },
  { label := "Ctrl+Alt+F6 (TTY 6)".toList,
    keyvals := [GDK_KEY_Control_L, GDK_KEY_Alt_L, GDK_KEY_F6, 0], nkeys := 3 },
  { label := "Ctrl+Alt+F7 (Desktop)".toList,
    keyvals := [GDK_KEY_Control_L, GDK_KEY_Alt_L, GDK_KEY_F7, 0], nkeys := 3 },
  { label := "Print Screen".toList,
    keyvals := [GDK_KEY_Print, 0, 0, 0], nkeys := 1 },
  { label := "Alt+F4".toList,
    keyvals := [GDK_KEY_Alt_L, GDK_KEY_F4, 0, 0], nkeys := 2 } ]

def N_KEY_COMBOS : Int := KEY_COMBOS.length

/-! ## Calls into the SPICE library and the main loop -/

/-- The struct `AgentResizeCtx` passed through `g_idle_add`. Its `viewer` field points to
the one viewer; the handler receives that viewer's state at the time it runs. -/
structure AgentResizeCtx where
  channel : SpiceChannel
deriving DecidableEq, Repr

/-- The library enum `SpiceDisplayKeyEvent`. -/
inductive SpiceDisplayKeyEvent where
  | PRESS
  | RELEASE
  | CLICK
deriving DecidableEq, Repr

/-- A call issued by the C code to the SPICE library, to GTK on a display widget, to the
GLib main loop or to the external action callback; object arguments are object ids. A call
is recorded; what the library does in response reaches the C code as later steps (`Op`),
except for the `channel-new` signals emitted inside `spice_session_connect`, whose handler
runs before that call returns (`spice_session_connect` below). -/
inductive Call where
  | spice_session_new (session : Nat)
  | spice_session_disconnect (session : Nat)
  | spice_session_connect (session : Nat)
  | spice_audio_get (session : Nat)
  | g_object_unref (session : Nat)
  | connect_channel_new (session : Nat)
  | connect_channel_event (channel : Nat)
  | connect_main_agent_update (channel : Nat)
  | spice_display_new (session : Nat) (display : Nat)
  | gtk_container_remove (display : Nat)
  | gtk_widget_destroy (display : Nat)
  | gtk_stack_add_named (display : Nat)
  | gtk_widget_show (display : Nat)
  | spice_display_send_keys (display : Option Nat) (keyvals : List Nat) (nkeys : Int)
      (kind : SpiceDisplayKeyEvent)
  | spice_main_channel_update_display_enabled (channel : Nat) (id : Int) (enabled : Bool)
      (update : Bool)
  | spice_main_channel_update_display (channel : Nat) (id x y width height : Int)
      (update : Bool)
  | g_idle_add (ctx : AgentResizeCtx)
  | action_fn (fn : Nat) (action : Int) (data : Nat)
  | gtk_main_quit
deriving DecidableEq, Repr

/-- The state outside the viewer struct: the `agent-connected` property of each channel
object (by id), the next unused object id, the calls issued so far, oldest first, and the
two library behaviours the C code depends on without choosing them. -/
structure Lib where
  agent_connected : Nat → Bool
  next_id : Nat
  calls : List Call
  /-- the channels the library announces by `channel-new` inside `spice_session_connect`
  for the session with this id, in order (spice-gtk constructs the session's main channel
  there and emits the signal before the call returns) -/
  announce : Nat → List SpiceChannel
  /-- the page the `GtkStack` ends up showing when its visible display page is removed
  and a new display page is added and shown (GTK's choice, the C code does not set it) -/
  page_after_remove : Page

/-- Record calls, in order. -/
def Lib.call (lib : Lib) (cs : List Call) : Lib := { lib with calls := lib.calls ++ cs }

/-- Library `spice_session_new ()`: a fresh session with no endpoint set. -/
def spice_session_new (lib : Lib) : SpiceSession × Lib :=
  ({ id := lib.next_id, host := none, port := none, password := none },
   { lib with next_id := lib.next_id + 1,
              calls := lib.calls ++ [Call.spice_session_new lib.next_id] })

/-- Library `spice_display_new (session, 0)`: a fresh display widget bound to `session`,
with the library defaults of its properties and no size allocated yet (GTK reports
1 x 1 before the first layout pass). -/
def spice_display_new (session : SpiceSession) (lib : Lib) : SpiceDisplay × Lib :=
  ({ id := lib.next_id, session := session.id, scaling := true, resize_guest := false,
     alloc_width := 1, alloc_height := 1 },
   { lib with next_id := lib.next_id + 1,
              calls := lib.calls ++ [Call.spice_display_new session.id lib.next_id] })

/-! ## Agent resize -/

/-- The value `G_SOURCE_REMOVE` (FALSE). -/
def G_SOURCE_REMOVE : Bool := false

def idle_push_display_size (ctx : AgentResizeCtx) (v : GrvViewer) (lib : Lib) : Bool × Lib :=
  let ch := ctx.channel
  match v.display with
  | none => (G_SOURCE_REMOVE, lib)
  | some display =>
    let agent_connected := lib.agent_connected ch.id
    if !agent_connected then (G_SOURCE_REMOVE, lib)
    else if display.alloc_width ≤ 1 ∨ display.alloc_height ≤ 1 then (G_SOURCE_REMOVE, lib)
    else
      (G_SOURCE_REMOVE,
       lib.call [Call.spice_main_channel_update_display_enabled ch.id 0 true false,
                 Call.spice_main_channel_update_display ch.id 0 0 0
                   display.alloc_width display.alloc_height true])

def on_main_agent_update (channel : SpiceChannel) (v : GrvViewer) (lib : Lib) : Lib :=
  match v.display with
  | none => lib
  | some _ =>
    let agent_connected := lib.agent_connected channel.id
    if !agent_connected then lib
    else lib.call [Call.g_idle_add { channel := channel }]

/-- The handler of the session signal `channel-new` (its `session` argument is unused). -/
def on_channel_new (channel : SpiceChannel) (v : GrvViewer) (lib : Lib) : GrvViewer × Lib :=
  if channel.is_main then
    ({ v with main_channel := some channel },
     lib.call [Call.connect_channel_event channel.id,
               Call.connect_main_agent_update channel.id])
  else (v, lib)

/-- Library `spice_session_connect (session)`. The call is recorded. Inside it the library
announces the channels `lib.announce session.id` by the session signal `channel-new`, and
GObject runs the connected handler for each before the call returns: `on_channel_new` on
the viewer `v`, when the C code has connected it to this session (the `g_signal_connect`
is in the trace). -/
def spice_session_connect (session : SpiceSession) (v : GrvViewer) (lib : Lib) :
    GrvViewer × Lib :=
  let lib1 := lib.call [Call.spice_session_connect session.id]
  if Call.connect_channel_new session.id ∈ lib1.calls then
    (lib.announce session.id).foldl
      (fun acc channel => on_channel_new channel acc.1 acc.2) (v, lib1)
  else (v, lib1)

/-! ## Window callbacks and fullscreen toggle -/

def on_delete_event (lib : Lib) : Lib := lib.call [Call.gtk_main_quit]

def toggle_fullscreen (v : GrvViewer) : GrvViewer :=
  if v.fullscreen then { v with toolbar_visible := true, fullscreen := false }
  else { v with toolbar_visible := false, fullscreen := true }

def on_key_press (keyval : Nat) (v : GrvViewer) : Bool × GrvViewer :=
  if keyval = GDK_KEY_F11 then (true, toggle_fullscreen v) else (false, v)

/-! ## Action callbacks -/

/-- The handler `on_action`. `v` is the viewer stored on the widget (`none` is NULL) and
`invoke fn action data` is what the external function at address `fn` does to the viewer
and to the library state when it is called with `(action, data)`. -/
def on_action (invoke : Nat → Int → Nat → GrvViewer × Lib → GrvViewer × Lib)
    (action : Int) (v : Option GrvViewer) (lib : Lib) : Option GrvViewer × Lib :=
  match v with
  | none => (none, lib)
  | some v =>
    match v.action_fn with
    | none => (some v, lib)
    | some fn =>
      let r := invoke fn action v.action_data
                 (v, lib.call [Call.action_fn fn action v.action_data])
      if action = GRV_ACTION_POWER_ON then
        (some { r.1 with status_title := "Starting VM".toList,
                         status_sub := "Waiting for console to reconnect...".toList,
                         stack_page := Page.powered_off }, r.2)
      else (some r.1, r.2)

/-! ## Send-key callback -/

def on_send_key (v : Option GrvViewer) (idx : Int) (lib : Lib) : Lib :=
  match v with
  | none => lib
  | some v =>
    if idx < 0 ∨ idx ≥ N_KEY_COMBOS then lib
    else
      match KEY_COMBOS[idx.toNat]? with
      | none => lib
      | some combo =>
        lib.call [Call.spice_display_send_keys (v.display.map SpiceDisplay.id)
                    combo.keyvals combo.nkeys SpiceDisplayKeyEvent.CLICK]

/-! ## View callbacks -/

def on_scale_toggled (v : Option GrvViewer) (active : Bool) : Option GrvViewer :=
  match v with
  | none => none
  | some v =>
    some { v with display := v.display.map (fun (d : SpiceDisplay) => { d with scaling := active }) }

def on_resize_guest_toggled (v : Option GrvViewer) (active : Bool) (lib : Lib) :
    Option GrvViewer × Lib :=
  match v with
  | none => (none, lib)
  | some v =>
    let display := v.display.map (fun (d : SpiceDisplay) => { d with resize_guest := active })
    let v1 := { v with display := display }
    if active then
      match v.main_channel with
      | some main_channel => (some v1, lib.call [Call.g_idle_add { channel := main_channel }])
      | none => (some v1, lib)
    else (some v1, lib)

def on_fullscreen_item (v : Option GrvViewer) : Option GrvViewer :=
  match v with
  | none => none
  | some v => some (toggle_fullscreen v)

/-! ## Public API -/

def grv_session_create (host port password : Option CStr) (lib : Lib) : SpiceSession × Lib :=
  let r := spice_session_new lib
  let session := { r.1 with host := host, port := port }
  match password with
  | some (c :: cs) => ({ session with password := some (c :: cs) }, r.2)
  | _ => (session, r.2)

/-- The function `grv_session_connect`; `v` is the viewer the signal handlers of the
session act on. -/
def grv_session_connect (session : SpiceSession) (v : GrvViewer) (lib : Lib) :
    GrvViewer × Lib :=
  spice_session_connect session v (lib.call [Call.spice_audio_get session.id])

def grv_viewer_reconnect (v : Option GrvViewer) (host port password : Option CStr)
    (lib : Lib) : Option GrvViewer × Lib :=
  match v, host, port with
  | some v0, some host0, some port0 =>
    match v0.session with
    | none => (some v0, lib)
    | some old_session =>
      -- read the preferences of the outgoing display, then destroy it
      let scaling := match v0.display with
        | some d => d.scaling
        | none => false
      let resize_guest := match v0.display with
        | some d => d.resize_guest
        | none => true
      let lib1 := match v0.display with
        | some d => lib.call [Call.gtk_container_remove d.id, Call.gtk_widget_destroy d.id]
        | none => lib
      -- the display page leaves the stack: when it was the visible page, what the stack
      -- shows once the new page is added and shown is GTK's choice
      let stack_page := match v0.display with
        | some _ => if v0.stack_page = Page.display then lib.page_after_remove
                    else v0.stack_page
        | none => v0.stack_page
      let v1 := { v0 with display := none, stack_page := stack_page }
      -- fresh session/display pair
      let v2 := { v1 with main_channel := none }
      let lib2 := lib1.call [Call.spice_session_disconnect old_session.id]
      let r := spice_session_new lib2
      let session1 := { r.1 with host := some host0, port := some port0 }
      let session := match password with
        | some (c :: cs) => { session1 with password := some (c :: cs) }
        | _ => session1
      let lib3 := r.2.call [Call.connect_channel_new session.id]
      let rd := spice_display_new session lib3
      let display := { rd.1 with scaling := scaling, resize_guest := resize_guest }
      let lib4 := rd.2.call [Call.gtk_stack_add_named display.id,
                             Call.gtk_widget_show display.id]
      let v3 := { v2 with session := some session, display := some display }
      let lib5 := lib4.call [Call.spice_audio_get session.id]
      -- `on_channel_new`, connected above, runs inside this call for the channels the
      -- library announces on the new session
      let rc := spice_session_connect session v3 lib5
      (some rc.1, rc.2.call [Call.g_object_unref old_session.id])
  | _, _, _ => (v, lib)

/-- The constructor `grv_viewer_build`; `session` is the session made by
`grv_session_create`. -/
def grv_viewer_build (title : Option CStr) (session : SpiceSession)
    (action_fn : Option Nat) (action_data : Nat) (lib : Lib) : GrvViewer × Lib :=
  let rd := spice_display_new session lib
  let display := { rd.1 with scaling := false, resize_guest := true }
  ({ window_title := title,
     display := some display,
     session := some session,
     main_channel := none,
     toolbar_visible := false,
     stack_page := Page.display,
     status_title := "VM Powered Off".toList,
     status_sub := "The virtual machine has stopped.".toList,
     fullscreen := false,
     action_fn := action_fn,
     action_data := action_data },
   rd.2.call [Call.connect_channel_new session.id, Call.gtk_stack_add_named display.id])

def grv_viewer_show (v : GrvViewer) : GrvViewer := { v with toolbar_visible := true }

def grv_viewer_set_powered_off (v : GrvViewer) : GrvViewer :=
  show_powered_off v "VM Powered Off".toList "The virtual machine has stopped.".toList

/-! ## The viewer as a transition system -/

/-- A call of the public API on the viewer, as the external side can issue it. -/
inductive ApiCall where
  | session_create (host port password : Option CStr)
  | session_connect (session : SpiceSession)
  | reconnect (host port password : Option CStr)
  | set_powered_off
  | show_window
deriving DecidableEq, Repr

def runApi (c : ApiCall) (w : GrvViewer × Lib) : GrvViewer × Lib :=
  match c with
  | ApiCall.session_create host port password =>
    (w.1, (grv_session_create host port password w.2).2)
  | ApiCall.session_connect session => grv_session_connect session w.1 w.2
  | ApiCall.reconnect host port password =>
    let r := grv_viewer_reconnect (some w.1) host port password w.2
    (r.1.getD w.1, r.2)
  | ApiCall.set_powered_off => (grv_viewer_set_powered_off w.1, w.2)
  | ApiCall.show_window => (grv_viewer_show w.1, w.2)

/-- One entry into the C code from the main loop or from the external side. The action
callback can reach the viewer only through the public API (the struct is private to the C
file), so an action carries the API calls its callback makes. -/
inductive Op where
  | channel_new (channel : SpiceChannel)
  | channel_event (channel : SpiceChannel) (event : Int)
  | main_agent_update (channel : SpiceChannel)
  | idle (ctx : AgentResizeCtx)
  | delete_event
  | key_press (keyval : Nat)
  | action (action : Int) (callback : List ApiCall)
  | send_key (idx : Int)
  | scale_toggled (active : Bool)
  | resize_guest_toggled (active : Bool)
  | fullscreen_item
  | api (c : ApiCall)
deriving DecidableEq, Repr

def step (op : Op) (w : GrvViewer × Lib) : GrvViewer × Lib :=
  match op with
  | Op.channel_new channel => on_channel_new channel w.1 w.2
  | Op.channel_event channel event => (on_channel_event channel event w.1, w.2)
  | Op.main_agent_update channel => (w.1, on_main_agent_update channel w.1 w.2)
  | Op.idle ctx => (w.1, (idle_push_display_size ctx w.1 w.2).2)
  | Op.delete_event => (w.1, on_delete_event w.2)
  | Op.key_press keyval => ((on_key_press keyval w.1).2, w.2)
  | Op.action action callback =>
    let r := on_action (fun _ _ _ w0 => callback.foldl (fun acc c => runApi c acc) w0)
               action (some w.1) w.2
    (r.1.getD w.1, r.2)
  | Op.send_key idx => (w.1, on_send_key (some w.1) idx w.2)
  | Op.scale_toggled active => ((on_scale_toggled (some w.1) active).getD w.1, w.2)
  | Op.resize_guest_toggled active =>
    let r := on_resize_guest_toggled (some w.1) active w.2
    (r.1.getD w.1, r.2)
  | Op.fullscreen_item => ((on_fullscreen_item (some w.1)).getD w.1, w.2)
  | Op.api c => runApi c w

/-! ## View State -/

/-- The View State a user sees: the display page (`Connected`), or the status page with
its two lines of copy. The spec's `PoweredOff` and `Error` states are the same page with
different copy; the labels are part of the status page only. -/
inductive ViewState where
  | Connected
  | Status (title subtitle : CStr)
deriving DecidableEq, Repr

def viewState (v : GrvViewer) : ViewState :=
  match v.stack_page with
  | Page.display => ViewState.Connected
  | Page.powered_off => ViewState.Status v.status_title v.status_sub

/-- Class of a channel event code as the spec names them. -/
inductive EventClass where
  | opened
  | closed
  | error
  | other
deriving DecidableEq, Repr

def classify (event : Int) : EventClass :=
  if event = SPICE_CHANNEL_OPENED then EventClass.opened
  else if event = SPICE_CHANNEL_CLOSED then EventClass.closed
  else if SPICE_CHANNEL_ERROR_CONNECT ≤ event then EventClass.error
  else EventClass.other

/-- The View State the spec attaches to each class of Main-Channel event. -/
def dictated : EventClass → Option ViewState
  | EventClass.opened => some ViewState.Connected
  | EventClass.closed =>
    some (ViewState.Status "VM Powered Off".toList "The virtual machine has stopped.".toList)
  | EventClass.error =>
    some (ViewState.Status "Connection Lost".toList
            "The SPICE connection was interrupted.".toList)
  | EventClass.other => none

/-- Process a sequence of events delivered on `channel`, in order. -/
def processEvents (channel : SpiceChannel) (events : List Int) (v : GrvViewer) : GrvViewer :=
  events.foldl (fun acc e => on_channel_event channel e acc) v

/-! ## Example inputs -/

/-- A library state with no agent connected and nothing allocated beyond id 0. Like
spice-gtk, the library announces one main channel inside each `spice_session_connect`
(here the channel numbered 100 above the session), and the stack falls back to the
powered-off page when the visible display page is removed. -/
def exampleLib : Lib :=
  { agent_connected := fun _ => false, next_id := 1, calls := [],
    announce := fun session => [{ id := session + 100, is_main := true }],
    page_after_remove := Page.powered_off }

/-- The session of the spec's scenario: host 10.0.0.5, port 5900, no password. -/
def exampleSession : SpiceSession :=
  { id := 0, host := some "10.0.0.5".toList, port := some "5900".toList, password := none }

/-- The viewer `grv_viewer_build` makes for `exampleSession`, titled `vm1`, with an action
callback installed. -/
def exampleViewer : GrvViewer :=
  (grv_viewer_build (some "vm1".toList) exampleSession (some 7) 0 exampleLib).1

/-- The library state right after building `exampleViewer`. -/
def exampleLibBuilt : Lib :=
  (grv_viewer_build (some "vm1".toList) exampleSession (some 7) 0 exampleLib).2

/-- A main channel object. -/
def exampleMain : SpiceChannel := { id := 5, is_main := true }

/-- The viewer `grv_viewer_build` makes with an empty window title. -/
def exampleUntitled : GrvViewer :=
  (grv_viewer_build (some []) exampleSession (some 7) 0 exampleLib).1

/-- The example viewer after the user turned scaling on and auto-resize-guest off: its
display preferences are (true, false). -/
def exampleToggled : GrvViewer :=
  (step (Op.resize_guest_toggled false)
    (step (Op.scale_toggled true) (exampleViewer, exampleLibBuilt))).1

/-- The example viewer once GTK has allocated 1024 x 768 to its display. -/
def exampleLaidOut : GrvViewer :=
  { exampleViewer with
    display := exampleViewer.display.map
      (fun (d : SpiceDisplay) => { d with alloc_width := 1024, alloc_height := 768 }) }

/-- A library state in which the agent of channel 5 is connected. -/
def exampleAgentLib : Lib :=
  { agent_connected := fun id => decide (id = 5), next_id := 6, calls := [],
    announce := fun session => [{ id := session + 100, is_main := true }],
    page_after_remove := Page.powered_off }

/-- The viewer `grv_viewer_build` makes when no action callback is passed. -/
def exampleNoCallback : GrvViewer :=
  (grv_viewer_build (some "vm1".toList) exampleSession none 0 exampleLib).1

/-- The example viewer once `on_channel_new` has observed the main channel. -/
def exampleWithMain : GrvViewer := (on_channel_new exampleMain exampleViewer exampleLibBuilt).1

/-! ## Allocation discipline -/

/-- Every object the viewer holds was allocated before: its id is below the next unused
id of the library state. -/
def idsAllocated (v : GrvViewer) (lib : Lib) : Bool :=
  v.session.all (fun s => decide (s.id < lib.next_id))
    && v.display.all (fun d => decide (d.id < lib.next_id))

/-! ## Lemmas on the string helpers -/

theorem g_str_has_suffix_iff (str suffix : CStr) :
    g_str_has_suffix str suffix = true ↔ suffix <:+ str := by
  unfold g_str_has_suffix
  constructor
  · intro h
    split at h
    · exact absurd h (by simp)
    · have h2 : str.drop (str.length - suffix.length) = suffix := by simpa using h
      have h3 := List.take_append_drop (str.length - suffix.length) str
      rw [h2] at h3
      exact ⟨_, h3⟩
  · rintro ⟨a, rfl⟩
    simp

theorem g_str_has_suffix_append (a suffix : CStr) :
    g_str_has_suffix (a ++ suffix) suffix = true :=
  (g_str_has_suffix_iff _ _).2 ⟨a, rfl⟩

theorem suffix_length : POWERED_OFF_SUFFIX.length = 14 := by decide

/-! ## Lemmas on the two page switches -/

theorem show_powered_off_page (v : GrvViewer) (t s : CStr) :
    (show_powered_off v t s).stack_page = Page.powered_off
      ∧ (show_powered_off v t s).status_title = t
      ∧ (show_powered_off v t s).status_sub = s := by
  unfold show_powered_off
  dsimp only
  split
  · split <;> simp
  · simp

theorem show_display_page (v : GrvViewer) : (show_display v).stack_page = Page.display := by
  unfold show_display
  dsimp only
  split
  · split <;> simp
  · simp

theorem viewState_show_powered_off (v : GrvViewer) (t s : CStr) :
    viewState (show_powered_off v t s) = ViewState.Status t s := by
  obtain ⟨h1, h2, h3⟩ := show_powered_off_page v t s
  simp [viewState, h1, h2, h3]

theorem viewState_show_display (v : GrvViewer) :
    viewState (show_display v) = ViewState.Connected := by
  simp [viewState, show_display_page]

theorem processEvents_append (channel : SpiceChannel) (events : List Int) (e : Int)
    (v : GrvViewer) :
    processEvents channel (events ++ [e]) v
      = on_channel_event channel e (processEvents channel events v) := by
  simp [processEvents, List.foldl_append]

theorem on_channel_event_main (cid : Nat) (e : Int) (v : GrvViewer) :
    on_channel_event { id := cid, is_main := true } e v =
      match classify e with
      | EventClass.opened => show_display v
      | EventClass.closed =>
        show_powered_off v "VM Powered Off".toList "The virtual machine has stopped.".toList
      | EventClass.error =>
        show_powered_off v "Connection Lost".toList
          "The SPICE connection was interrupted.".toList
      | EventClass.other => v := by
  unfold on_channel_event classify
  by_cases h1 : e = SPICE_CHANNEL_OPENED
  · simp [h1]
  · by_cases h2 : e = SPICE_CHANNEL_CLOSED
    · simp [h2, show SPICE_CHANNEL_CLOSED ≠ SPICE_CHANNEL_OPENED by decide]
    · by_cases h3 : SPICE_CHANNEL_ERROR_CONNECT ≤ e
      · simp [h1, h2, h3]
      · simp [h1, h2, h3]

theorem show_powered_off_title_of_no_suffix (v : GrvViewer) (t s cur : CStr)
    (hcur : v.window_title = some cur)
    (hns : g_str_has_suffix cur POWERED_OFF_SUFFIX = false) :
    (show_powered_off v t s).window_title = some (cur ++ POWERED_OFF_SUFFIX) := by
  unfold show_powered_off
  simp [hcur, hns]

theorem show_powered_off_title_of_suffix (v : GrvViewer) (t s cur : CStr)
    (hcur : v.window_title = some cur)
    (hs : g_str_has_suffix cur POWERED_OFF_SUFFIX = true) :
    (show_powered_off v t s).window_title = some cur := by
  unfold show_powered_off
  simp [hcur, hs]

theorem show_powered_off_title_none (v : GrvViewer) (t s : CStr)
    (hcur : v.window_title = none) :
    (show_powered_off v t s).window_title = none := by
  unfold show_powered_off
  simp [hcur]

/-- After one powered-off transition the title is absent or ends with the suffix. -/
theorem show_powered_off_title_settled (v : GrvViewer) (t s : CStr) :
    (show_powered_off v t s).window_title = none ∨
      ∃ cur, (show_powered_off v t s).window_title = some cur
        ∧ g_str_has_suffix cur POWERED_OFF_SUFFIX = true := by
  cases hcur : v.window_title with
  | none => exact Or.inl (show_powered_off_title_none v t s hcur)
  | some cur =>
    right
    cases hs : g_str_has_suffix cur POWERED_OFF_SUFFIX with
    | true => exact ⟨cur, show_powered_off_title_of_suffix v t s cur hcur hs, hs⟩
    | false =>
      exact ⟨_, show_powered_off_title_of_no_suffix v t s cur hcur hs,
        g_str_has_suffix_append _ _⟩

/-- A powered-off transition leaves a settled title alone. -/
theorem show_powered_off_title_twice (v : GrvViewer) (t s t2 s2 : CStr) :
    (show_powered_off (show_powered_off v t s) t2 s2).window_title
      = (show_powered_off v t s).window_title := by
  rcases show_powered_off_title_settled v t s with h | ⟨cur, h, hs⟩
  · rw [show_powered_off_title_none _ _ _ h, h]
  · rw [show_powered_off_title_of_suffix _ _ _ cur h hs, h]

theorem show_powered_off_eq (v : GrvViewer) (t s : CStr) :
    show_powered_off v t s =
      { v with status_title := t, status_sub := s, stack_page := Page.powered_off,
               window_title := (show_powered_off v t s).window_title } := by
  unfold show_powered_off
  dsimp only
  split
  · split <;> simp_all
  · simp_all

theorem show_powered_off_twice (v : GrvViewer) (t s : CStr) :
    show_powered_off (show_powered_off v t s) t s = show_powered_off v t s := by
  rw [show_powered_off_eq (show_powered_off v t s) t s, show_powered_off_title_twice]
  conv_rhs => rw [show_powered_off_eq v t s]
  conv_lhs => rw [show_powered_off_eq v t s]

theorem show_powered_off_iterate_title (v : GrvViewer) (t s cur : CStr)
    (hcur : v.window_title = some cur)
    (hns : g_str_has_suffix cur POWERED_OFF_SUFFIX = false) (n : Nat) :
    ((fun x => show_powered_off x t s)^[n + 1] v).window_title
      = some (cur ++ POWERED_OFF_SUFFIX) := by
  induction n with
  | zero => simpa using show_powered_off_title_of_no_suffix v t s cur hcur hns
  | succ k ih =>
    rw [Function.iterate_succ_apply'] 
    exact show_powered_off_title_of_suffix _ t s _ ih (g_str_has_suffix_append _ _)

theorem show_display_title_strip (v : GrvViewer) (t : CStr) (ht : t ≠ [])
    (hcur : v.window_title = some (t ++ POWERED_OFF_SUFFIX)) :
    (show_display v).window_title = some t := by
  have hlen : 0 < t.length := List.length_pos.2 ht
  unfold show_display
  simp [hcur, g_str_has_suffix_append, g_strndup, hlen]

theorem show_display_title_of_no_suffix (v : GrvViewer) (cur : CStr)
    (hcur : v.window_title = some cur)
    (hns : g_str_has_suffix cur POWERED_OFF_SUFFIX = false) :
    (show_display v).window_title = some cur := by
  unfold show_display
  simp [hcur, hns]

theorem show_display_title_none (v : GrvViewer) (hcur : v.window_title = none) :
    (show_display v).window_title = none := by
  unfold show_display
  simp [hcur]

/-! ## Channels announced inside a connect call -/

/-- Running `on_channel_new` over announced channels touches only the main channel
reference of the viewer. -/
theorem announce_foldl_viewer (cs : List SpiceChannel) (w : GrvViewer × Lib) :
    (cs.foldl (fun acc channel => on_channel_new channel acc.1 acc.2) w).1 =
      { w.1 with main_channel :=
          (cs.foldl (fun acc channel => on_channel_new channel acc.1 acc.2) w).1.main_channel } := by
  induction cs generalizing w with
  | nil => rfl
  | cons ch rest ih =>
    rw [List.foldl_cons, ih]
    unfold on_channel_new
    split <;> rfl

/-- The reference left is the last main channel announced, or the earlier reference when
no main channel was announced. -/
theorem announce_foldl_main_channel (cs : List SpiceChannel) (w : GrvViewer × Lib) :
    (cs.foldl (fun acc channel => on_channel_new channel acc.1 acc.2) w).1.main_channel =
      match (cs.filter SpiceChannel.is_main).getLast? with
      | some c => some c
      | none => w.1.main_channel := by
  induction cs generalizing w with
  | nil => rfl
  | cons ch rest ih =>
    rw [List.foldl_cons, ih]
    cases hm : ch.is_main with
    | false => simp [List.filter_cons, hm, on_channel_new]
    | true =>
      simp only [List.filter_cons, hm, if_true, List.getLast?_cons, on_channel_new]
      cases (rest.filter SpiceChannel.is_main).getLast? <;> rfl

/-- Running `on_channel_new` over announced channels only appends calls to the trace. -/
theorem announce_foldl_lib (cs : List SpiceChannel) (w : GrvViewer × Lib) :
    ∃ extra,
      (cs.foldl (fun acc channel => on_channel_new channel acc.1 acc.2) w).2 =
        { w.2 with calls := w.2.calls ++ extra } := by
  induction cs generalizing w with
  | nil => exact ⟨[], by simp⟩
  | cons ch rest ih =>
    rw [List.foldl_cons]
    obtain ⟨extra, he⟩ := ih (on_channel_new ch w.1 w.2)
    rw [he]
    unfold on_channel_new
    split
    · exact ⟨[Call.connect_channel_event ch.id, Call.connect_main_agent_update ch.id]
        ++ extra, by simp [Lib.call]⟩
    · exact ⟨extra, rfl⟩

/-- What `spice_session_connect` does when `on_channel_new` is connected to the session. -/
theorem spice_session_connect_connected (session : SpiceSession) (v : GrvViewer) (lib : Lib)
    (hc : Call.connect_channel_new session.id ∈ lib.calls) :
    ∃ extra,
      spice_session_connect session v lib =
        ({ v with main_channel :=
              match ((lib.announce session.id).filter SpiceChannel.is_main).getLast? with
              | some c => some c
              | none => v.main_channel },
         { lib with calls := lib.calls ++ [Call.spice_session_connect session.id] ++ extra }) := by
  have hmem : Call.connect_channel_new session.id
      ∈ (lib.call [Call.spice_session_connect session.id]).calls := by
    simp [Lib.call, hc]
  obtain ⟨extra, he⟩ := announce_foldl_lib (lib.announce session.id)
    (v, lib.call [Call.spice_session_connect session.id])
  refine ⟨extra, ?_⟩
  unfold spice_session_connect
  simp only [if_pos hmem]
  apply Prod.ext
  · rw [announce_foldl_viewer, announce_foldl_main_channel]
  · rw [he]; rfl

/-- In every case `spice_session_connect` leaves the viewer as it was up to the main
channel reference, which it found so or took from the announced main channels, and only
appends to the trace. -/
theorem spice_session_connect_spec (session : SpiceSession) (v : GrvViewer) (lib : Lib) :
    (∃ mc extra,
      spice_session_connect session v lib =
        ({ v with main_channel := mc }, { lib with calls := lib.calls ++ extra })
      ∧ ∀ c, mc = some c →
          v.main_channel = some c ∨ (c.is_main = true ∧ c ∈ lib.announce session.id)) := by
  by_cases hc : Call.connect_channel_new session.id ∈ lib.calls
  · obtain ⟨extra, he⟩ := spice_session_connect_connected session v lib hc
    refine ⟨_, _, by rw [he, List.append_assoc], ?_⟩
    intro c hmc
    cases hl : ((lib.announce session.id).filter SpiceChannel.is_main).getLast? with
    | none => rw [hl] at hmc; exact Or.inl hmc
    | some c2 =>
      rw [hl] at hmc
      have hc2 : c2 = c := Option.some.inj hmc
      subst hc2
      have hmem := List.mem_of_getLast?_eq_some hl
      rw [List.mem_filter] at hmem
      exact Or.inr ⟨hmem.2, hmem.1⟩
  · have hmem : Call.connect_channel_new session.id
        ∉ (lib.call [Call.spice_session_connect session.id]).calls := by
      simp [Lib.call, hc]
    refine ⟨v.main_channel, [Call.spice_session_connect session.id], ?_, fun c h => Or.inl h⟩
    unfold spice_session_connect
    simp only [if_neg hmem]
    rfl

/-! ## Reconnect -/

/-- A reconnect with a current session and an endpoint, up to its `spice_session_connect`
call: the session, the viewer and the library state that call is made on. -/
theorem grv_viewer_reconnect_unfold (v : GrvViewer) (old : SpiceSession) (host port : CStr)
    (password : Option CStr) (lib : Lib) (hs : v.session = some old) :
    ∃ pw S V L,
      grv_viewer_reconnect (some v) (some host) (some port) password lib =
        (some (spice_session_connect S V L).1,
         (spice_session_connect S V L).2.call [Call.g_object_unref old.id])
      ∧ S = { id := lib.next_id, host := some host, port := some port, password := pw }
      ∧ V = { v with
              main_channel := none,
              stack_page := (match v.display with
                | some _ => if v.stack_page = Page.display then lib.page_after_remove
                            else v.stack_page
                | none => v.stack_page),
              session := some { id := lib.next_id, host := some host, port := some port,
                                password := pw },
              display := some { id := lib.next_id + 1, session := lib.next_id,
                                scaling := (v.display.map SpiceDisplay.scaling).getD false,
                                resize_guest :=
                                  (v.display.map SpiceDisplay.resize_guest).getD true,
                                alloc_width := 1, alloc_height := 1 } }
      ∧ L = { lib with
              next_id := lib.next_id + 2,
              calls := lib.calls
                ++ (match v.display with
                    | some d =>
                      [Call.gtk_container_remove d.id, Call.gtk_widget_destroy d.id]
                    | none => [])
                ++ [Call.spice_session_disconnect old.id,
                    Call.spice_session_new lib.next_id,
                    Call.connect_channel_new lib.next_id,
                    Call.spice_display_new lib.next_id (lib.next_id + 1),
                    Call.gtk_stack_add_named (lib.next_id + 1),
                    Call.gtk_widget_show (lib.next_id + 1),
                    Call.spice_audio_get lib.next_id] } := by
  rcases password with _ | (_ | ⟨c, cs⟩)
  · refine ⟨none, _, _, _, ?_, rfl, rfl, rfl⟩
    cases hd : v.display <;>
      simp [grv_viewer_reconnect, hs, hd, spice_session_new, spice_display_new, Lib.call]
  · refine ⟨none, _, _, _, ?_, rfl, rfl, rfl⟩
    cases hd : v.display <;>
      simp [grv_viewer_reconnect, hs, hd, spice_session_new, spice_display_new, Lib.call]
  · refine ⟨some (c :: cs), _, _, _, ?_, rfl, rfl, rfl⟩
    cases hd : v.display <;>
      simp [grv_viewer_reconnect, hs, hd, spice_session_new, spice_display_new, Lib.call]

/-- What a reconnect with a current session and an endpoint produces: the viewer holds
a session and a display made in this call, the main channel reference is the last main
channel the library announced inside the connect call (none if it announced none), and
two object ids are consumed. -/
theorem grv_viewer_reconnect_ok (v : GrvViewer) (old : SpiceSession) (host port : CStr)
    (password : Option CStr) (lib : Lib) (hs : v.session = some old) :
    ∃ pw extra,
      grv_viewer_reconnect (some v) (some host) (some port) password lib =
        (some { v with
            main_channel :=
              ((lib.announce lib.next_id).filter SpiceChannel.is_main).getLast?,
            stack_page := (match v.display with
              | some _ => if v.stack_page = Page.display then lib.page_after_remove
                          else v.stack_page
              | none => v.stack_page),
            session := some { id := lib.next_id, host := some host, port := some port,
                              password := pw },
            display := some { id := lib.next_id + 1, session := lib.next_id,
                              scaling := (v.display.map SpiceDisplay.scaling).getD false,
                              resize_guest :=
                                (v.display.map SpiceDisplay.resize_guest).getD true,
                              alloc_width := 1, alloc_height := 1 } },
         { lib with
            next_id := lib.next_id + 2,
            calls := lib.calls
              ++ (match v.display with
                  | some d => [Call.gtk_container_remove d.id, Call.gtk_widget_destroy d.id]
                  | none => [])
              ++ [Call.spice_session_disconnect old.id,
                  Call.spice_session_new lib.next_id,
                  Call.connect_channel_new lib.next_id,
                  Call.spice_display_new lib.next_id (lib.next_id + 1),
                  Call.gtk_stack_add_named (lib.next_id + 1),
                  Call.gtk_widget_show (lib.next_id + 1),
                  Call.spice_audio_get lib.next_id,
                  Call.spice_session_connect lib.next_id]
              ++ extra
              ++ [Call.g_object_unref old.id] }) := by
  obtain ⟨pw, S, V, L, hu, hS, hV, hL⟩ :=
    grv_viewer_reconnect_unfold v old host port password lib hs
  have hc : Call.connect_channel_new S.id ∈ L.calls := by
    rw [hS, hL]; simp
  obtain ⟨extra, he⟩ := spice_session_connect_connected S V L hc
  refine ⟨pw, extra, ?_⟩
  rw [hu, he, hS, hV, hL]
  cases hl : ((lib.announce lib.next_id).filter SpiceChannel.is_main).getLast? <;>
    simp [Lib.call, hl]

theorem grv_viewer_reconnect_noop (v : Option GrvViewer) (host port password : Option CStr)
    (lib : Lib)
    (h : v = none ∨ host = none ∨ port = none ∨ ∃ v0, v = some v0 ∧ v0.session = none) :
    grv_viewer_reconnect v host port password lib = (v, lib) := by
  unfold grv_viewer_reconnect
  rcases h with h | h | h | ⟨v0, h, hs⟩
  · subst h; rfl
  · subst h; cases v <;> rfl
  · subst h; cases v <;> cases host <;> rfl
  · subst h; cases host <;> cases port <;> simp [hs]


/-! ## Who writes the main channel reference -/

theorem show_display_eq (v : GrvViewer) :
    show_display v =
      { v with stack_page := Page.display, window_title := (show_display v).window_title } := by
  unfold show_display
  dsimp only
  split
  · split <;> simp_all
  · simp_all

theorem on_channel_event_main_channel (channel : SpiceChannel) (e : Int) (v : GrvViewer) :
    (on_channel_event channel e v).main_channel = v.main_channel := by
  unfold on_channel_event
  repeat' split
  · rfl
  · rw [show_display_eq]
  · rw [show_powered_off_eq]
  · rw [show_powered_off_eq]
  · rfl

theorem grv_viewer_reconnect_keeps_lib (v : GrvViewer) (host port password : Option CStr)
    (lib : Lib) :
    (grv_viewer_reconnect (some v) host port password lib).2.announce = lib.announce := by
  cases host with
  | none => rw [grv_viewer_reconnect_noop _ _ _ _ _ (Or.inr (Or.inl rfl))]
  | some host0 =>
    cases port with
    | none => rw [grv_viewer_reconnect_noop _ _ _ _ _ (Or.inr (Or.inr (Or.inl rfl)))]
    | some port0 =>
      cases hs : v.session with
      | none =>
        rw [grv_viewer_reconnect_noop _ _ _ _ _ (Or.inr (Or.inr (Or.inr ⟨v, rfl, hs⟩)))]
      | some old =>
        obtain ⟨pw, extra, hr⟩ := grv_viewer_reconnect_ok v old host0 port0 password lib hs
        rw [hr]

theorem grv_viewer_reconnect_main_channel (v : GrvViewer) (host port password : Option CStr)
    (lib : Lib) (c : SpiceChannel)
    (h : ((grv_viewer_reconnect (some v) host port password lib).1.getD v).main_channel
          = some c) :
    v.main_channel = some c ∨ (c.is_main = true ∧ ∃ sid, c ∈ lib.announce sid) := by
  cases host with
  | none => left; rwa [grv_viewer_reconnect_noop _ _ _ _ _ (Or.inr (Or.inl rfl))] at h
  | some host0 =>
    cases port with
    | none =>
      left; rwa [grv_viewer_reconnect_noop _ _ _ _ _ (Or.inr (Or.inr (Or.inl rfl)))] at h
    | some port0 =>
      cases hs : v.session with
      | none =>
        left
        rwa [grv_viewer_reconnect_noop _ _ _ _ _
          (Or.inr (Or.inr (Or.inr ⟨v, rfl, hs⟩)))] at h
      | some old =>
        obtain ⟨pw, extra, hr⟩ := grv_viewer_reconnect_ok v old host0 port0 password lib hs
        rw [hr] at h
        have hl : ((lib.announce lib.next_id).filter SpiceChannel.is_main).getLast?
            = some c := h
        have hmem := List.mem_of_getLast?_eq_some hl
        rw [List.mem_filter] at hmem
        exact Or.inr ⟨hmem.2, lib.next_id, hmem.1⟩

theorem runApi_announce (a : ApiCall) (w : GrvViewer × Lib) :
    (runApi a w).2.announce = w.2.announce := by
  cases a with
  | session_create host port password =>
    rcases password with _ | (_ | ⟨c, cs⟩) <;> rfl
  | session_connect session =>
    obtain ⟨mc, extra, he, _⟩ := spice_session_connect_spec session w.1
      (w.2.call [Call.spice_audio_get session.id])
    simp only [runApi, grv_session_connect]
    rw [he]
    rfl
  | reconnect host port password =>
    exact grv_viewer_reconnect_keeps_lib w.1 host port password w.2
  | set_powered_off => rfl
  | show_window => rfl

theorem runApi_main_channel (a : ApiCall) (w : GrvViewer × Lib) (c : SpiceChannel)
    (h : (runApi a w).1.main_channel = some c) :
    w.1.main_channel = some c ∨ (c.is_main = true ∧ ∃ sid, c ∈ w.2.announce sid) := by
  cases a with
  | session_create host port password => exact Or.inl h
  | session_connect session =>
    obtain ⟨mc, extra, he, hmc⟩ := spice_session_connect_spec session w.1
      (w.2.call [Call.spice_audio_get session.id])
    simp only [runApi, grv_session_connect] at h
    rw [he] at h
    rcases hmc c h with h1 | ⟨h1, h2⟩
    · exact Or.inl h1
    · exact Or.inr ⟨h1, session.id, h2⟩
  | reconnect host port password =>
    exact grv_viewer_reconnect_main_channel w.1 host port password w.2 c h
  | set_powered_off =>
    left
    simp only [runApi, grv_viewer_set_powered_off] at h
    rw [show_powered_off_eq] at h
    exact h
  | show_window => exact Or.inl h

theorem runApi_foldl_announce (callback : List ApiCall) (w : GrvViewer × Lib) :
    (callback.foldl (fun acc a => runApi a acc) w).2.announce = w.2.announce := by
  induction callback generalizing w with
  | nil => rfl
  | cons a rest ih => rw [List.foldl_cons, ih, runApi_announce]

theorem runApi_foldl_main_channel (callback : List ApiCall) (w : GrvViewer × Lib)
    (c : SpiceChannel)
    (h : (callback.foldl (fun acc a => runApi a acc) w).1.main_channel = some c) :
    w.1.main_channel = some c ∨ (c.is_main = true ∧ ∃ sid, c ∈ w.2.announce sid) := by
  induction callback generalizing w with
  | nil => exact Or.inl (by simpa using h)
  | cons a rest ih =>
    rw [List.foldl_cons] at h
    rcases ih (runApi a w) h with h1 | ⟨h1, sid, h2⟩
    · exact runApi_main_channel a w c h1
    · rw [runApi_announce] at h2
      exact Or.inr ⟨h1, sid, h2⟩

/-- A step that leaves the reference `some c` found it so, or `c` is a main channel that
`on_channel_new` observed: as the step itself, or announced inside a
`spice_session_connect` made during the step. -/
theorem step_main_channel (op : Op) (w : GrvViewer × Lib) (c : SpiceChannel)
    (h : (step op w).1.main_channel = some c) :
    w.1.main_channel = some c
      ∨ (c.is_main = true ∧ (op = Op.channel_new c ∨ ∃ sid, c ∈ w.2.announce sid)) := by
  cases op with
  | channel_new channel =>
    simp only [step, on_channel_new] at h
    by_cases hm : channel.is_main = true
    · rw [if_pos hm] at h
      simp only [Option.some.injEq] at h
      subst h
      exact Or.inr ⟨hm, Or.inl rfl⟩
    · rw [if_neg hm] at h
      exact Or.inl h
  | channel_event channel event =>
    left
    simpa [step, on_channel_event_main_channel] using h
  | main_agent_update channel => exact Or.inl h
  | idle ctx => exact Or.inl h
  | delete_event => exact Or.inl h
  | key_press keyval =>
    left
    simp only [step, on_key_press, toggle_fullscreen] at h
    repeat' split at h
    all_goals exact h
  | action action callback =>
    simp only [step, on_action] at h
    cases hf : w.1.action_fn with
    | none => left; simpa [hf] using h
    | some fn =>
      simp only [hf] at h
      have key : ∀ h2 : (callback.foldl (fun acc a => runApi a acc)
          (w.1, w.2.call [Call.action_fn fn action w.1.action_data])).1.main_channel = some c,
          w.1.main_channel = some c
            ∨ (c.is_main = true
                ∧ (Op.action action callback = Op.channel_new c
                    ∨ ∃ sid, c ∈ w.2.announce sid)) := by
        intro h2
        rcases runApi_foldl_main_channel callback
          (w.1, w.2.call [Call.action_fn fn action w.1.action_data]) c h2 with h1 | ⟨h1, h3⟩
        · exact Or.inl h1
        · exact Or.inr ⟨h1, Or.inr h3⟩
      split at h
      · exact key h
      · exact key h
  | send_key idx => exact Or.inl h
  | scale_toggled active => exact Or.inl h
  | resize_guest_toggled active =>
    left
    simp only [step, on_resize_guest_toggled] at h
    repeat' split at h
    all_goals exact h
  | fullscreen_item =>
    left
    simp only [step, on_fullscreen_item, toggle_fullscreen] at h
    split at h <;> exact h
  | api a =>
    rcases runApi_main_channel a w c h with h1 | ⟨h1, h3⟩
    · exact Or.inl h1
    · exact Or.inr ⟨h1, Or.inr h3⟩

/-! ## The allocation discipline is an invariant -/

/-- The viewer `grv_viewer_build` makes holds allocated objects only. -/
theorem idsAllocated_build (title : Option CStr) (session : SpiceSession)
    (action_fn : Option Nat) (action_data : Nat) (lib : Lib) (h : session.id < lib.next_id) :
    idsAllocated (grv_viewer_build title session action_fn action_data lib).1
      (grv_viewer_build title session action_fn action_data lib).2 = true := by
  simp [idsAllocated, grv_viewer_build, spice_display_new, Lib.call]
  omega

theorem idsAllocated_reconnect (v : GrvViewer) (host port password : Option CStr) (lib : Lib)
    (h : idsAllocated v lib = true) :
    idsAllocated ((grv_viewer_reconnect (some v) host port password lib).1.getD v)
      (grv_viewer_reconnect (some v) host port password lib).2 = true := by
  cases host with
  | none => rwa [grv_viewer_reconnect_noop _ _ _ _ _ (Or.inr (Or.inl rfl))]
  | some host0 =>
    cases port with
    | none => rwa [grv_viewer_reconnect_noop _ _ _ _ _ (Or.inr (Or.inr (Or.inl rfl)))]
    | some port0 =>
      cases hs : v.session with
      | none =>
        rwa [grv_viewer_reconnect_noop _ _ _ _ _ (Or.inr (Or.inr (Or.inr ⟨v, rfl, hs⟩)))]
      | some old =>
        obtain ⟨pw, extra, hr⟩ := grv_viewer_reconnect_ok v old host0 port0 password lib hs
        rw [hr]
        simp [idsAllocated]

theorem idsAllocated_runApi (a : ApiCall) (w : GrvViewer × Lib)
    (h : idsAllocated w.1 w.2 = true) :
    idsAllocated (runApi a w).1 (runApi a w).2 = true := by
  cases a with
  | session_create host port password =>
    have hmono : ∀ n, idsAllocated w.1 { w.2 with next_id := w.2.next_id + 1, calls := n }
        = true := by
      intro n
      revert h
      simp only [idsAllocated]
      cases w.1.session <;> cases w.1.display <;> simp <;> omega
    rcases password with _ | (_ | ⟨c, cs⟩) <;> exact hmono _
  | session_connect session =>
    obtain ⟨mc, extra, he, _⟩ := spice_session_connect_spec session w.1
      (w.2.call [Call.spice_audio_get session.id])
    simp only [runApi, grv_session_connect]
    rw [he]
    exact h
  | reconnect host port password => exact idsAllocated_reconnect w.1 host port password w.2 h
  | set_powered_off =>
    simp only [runApi, grv_viewer_set_powered_off]
    rw [show_powered_off_eq]
    exact h
  | show_window => exact h

theorem idsAllocated_foldl (callback : List ApiCall) (w : GrvViewer × Lib)
    (h : idsAllocated w.1 w.2 = true) :
    idsAllocated (callback.foldl (fun acc a => runApi a acc) w).1
      (callback.foldl (fun acc a => runApi a acc) w).2 = true := by
  induction callback generalizing w with
  | nil => simpa using h
  | cons a rest ih =>
    rw [List.foldl_cons]
    exact ih _ (idsAllocated_runApi a w h)

theorem idsAllocated_step (op : Op) (w : GrvViewer × Lib) (h : idsAllocated w.1 w.2 = true) :
    idsAllocated (step op w).1 (step op w).2 = true := by
  cases op with
  | channel_new channel =>
    simp only [step, on_channel_new]
    split <;> exact h
  | channel_event channel event =>
    simp only [step, on_channel_event]
    repeat' split
    · exact h
    · rw [show_display_eq]; exact h
    · rw [show_powered_off_eq]; exact h
    · rw [show_powered_off_eq]; exact h
    · exact h
  | main_agent_update channel =>
    simp only [step, on_main_agent_update]
    repeat' split
    all_goals exact h
  | idle ctx =>
    simp only [step, idle_push_display_size]
    repeat' split
    all_goals exact h
  | delete_event => exact h
  | key_press keyval =>
    simp only [step, on_key_press, toggle_fullscreen]
    repeat' split
    all_goals exact h
  | action action callback =>
    simp only [step, on_action]
    cases hf : w.1.action_fn with
    | none => exact h
    | some fn =>
      have h2 := idsAllocated_foldl callback
        (w.1, w.2.call [Call.action_fn fn action w.1.action_data]) h
      dsimp only
      split
      · exact h2
      · exact h2
  | send_key idx =>
    simp only [step, on_send_key]
    repeat' split
    all_goals exact h
  | scale_toggled active =>
    simp only [step, on_scale_toggled, Option.getD]
    revert h
    simp only [idsAllocated]
    cases w.1.display <;> exact id
  | resize_guest_toggled active =>
    simp only [step, on_resize_guest_toggled]
    revert h
    simp only [idsAllocated]
    cases w.1.display <;> repeat' split
    all_goals exact id
  | fullscreen_item =>
    simp only [step, on_fullscreen_item, toggle_fullscreen]
    split <;> exact h
  | api a => exact idsAllocated_runApi a w h

/-! ## The claims -/

/-- C1, as the code has it: for every starting viewer and every non-empty sequence of
Main-Channel events processed in order by `on_channel_event`, the resulting View State is
the one the last event dictates when that event is opened (Connected), closed (status
page, standard powered-off copy) or error-class (status page, connection-lost copy); a
last event of any other code leaves the View State the earlier events produced. -/
theorem last_event_decides_view_state (cid : Nat) (v : GrvViewer) (events : List Int)
    (e : Int) :
    viewState (processEvents { id := cid, is_main := true } (events ++ [e]) v) =
      match dictated (classify e) with
      | some s => s
      | none => viewState (processEvents { id := cid, is_main := true } events v) := by
  rw [processEvents_append, on_channel_event_main]
  cases classify e <;>
    simp [dictated, viewState_show_display, viewState_show_powered_off]

/-- C1, the claim as stated fails: the two sequences (opened, switching) and (closed,
switching) end in the same Main-Channel event and leave different View States, because a
switching event changes nothing. -/
theorem switching_last_event_view_states_differ :
    viewState (processEvents exampleMain [SPICE_CHANNEL_OPENED, SPICE_CHANNEL_SWITCHING]
        exampleViewer) = ViewState.Connected
      ∧ viewState (processEvents exampleMain [SPICE_CHANNEL_CLOSED, SPICE_CHANNEL_SWITCHING]
          exampleViewer)
        = ViewState.Status "VM Powered Off".toList "The virtual machine has stopped.".toList
      ∧ viewState (processEvents exampleMain [SPICE_CHANNEL_OPENED, SPICE_CHANNEL_SWITCHING]
          exampleViewer)
        ≠ viewState (processEvents exampleMain
            [SPICE_CHANNEL_CLOSED, SPICE_CHANNEL_SWITCHING] exampleViewer) := by
  decide

/-- C2: the powered-off transition is idempotent on the window title. For every viewer
(every title, absent ones included) a second `show_powered_off`, with any copy, leaves the
title the first one produced, and with the same copy leaves the whole viewer as it was;
the same holds of `grv_viewer_set_powered_off`. For a title that did not carry the suffix,
the title after any number n+1 of transitions is the original title followed by one
occurrence of the suffix, never by two. -/
theorem powered_off_title_idempotent (v : GrvViewer) (t s t2 s2 : CStr) :
    (show_powered_off (show_powered_off v t s) t2 s2).window_title
        = (show_powered_off v t s).window_title
      ∧ show_powered_off (show_powered_off v t s) t s = show_powered_off v t s
      ∧ grv_viewer_set_powered_off (grv_viewer_set_powered_off v)
          = grv_viewer_set_powered_off v
      ∧ ∀ cur, v.window_title = some cur →
          g_str_has_suffix cur POWERED_OFF_SUFFIX = false →
          (∀ n : Nat, ((fun x => show_powered_off x t s)^[n + 1] v).window_title
              = some (cur ++ POWERED_OFF_SUFFIX))
            ∧ (show_powered_off (show_powered_off v t s) t2 s2).window_title
                ≠ some (cur ++ POWERED_OFF_SUFFIX ++ POWERED_OFF_SUFFIX) := by
  refine ⟨show_powered_off_title_twice v t s t2 s2, show_powered_off_twice v t s,
    show_powered_off_twice v _ _, ?_⟩
  intro cur hcur hns
  refine ⟨show_powered_off_iterate_title v t s cur hcur hns, ?_⟩
  rw [show_powered_off_title_twice, show_powered_off_title_of_no_suffix v t s cur hcur hns]
  intro h
  have h2 := congrArg List.length (Option.some.inj h)
  simp [suffix_length] at h2

/-- C2 at the viewer titled `vm1`: two and three transitions both leave
`vm1 [Powered Off]`. -/
theorem powered_off_title_idempotent_witness :
    ((fun x => show_powered_off x "Connection Lost".toList [])^[2] exampleViewer).window_title
        = some "vm1 [Powered Off]".toList
      ∧ ((fun x => show_powered_off x "Connection Lost".toList [])^[3]
          exampleViewer).window_title = some "vm1 [Powered Off]".toList :=
  ⟨((powered_off_title_idempotent exampleViewer "Connection Lost".toList [] [] []).2.2.2
      "vm1".toList (by decide) (by decide)).1 1,
   ((powered_off_title_idempotent exampleViewer "Connection Lost".toList [] [] []).2.2.2
      "vm1".toList (by decide) (by decide)).1 2⟩

/-- C3: `grv_viewer_reconnect` preserves the two display preferences exactly. For every
viewer with a Display Surface `d` and every non-absent host and port, the viewer's Display
Surface after the call has `scaling = d.scaling` and `resize_guest = d.resize_guest`; when
the viewer has a current Session, that surface is the one created in this call, bound to
the Session created in this call. -/
theorem reconnect_preserves_display_preferences (v : GrvViewer) (d : SpiceDisplay)
    (host port : CStr) (password : Option CStr) (lib : Lib) (hd : v.display = some d) :
    ∃ v2 d2,
      (grv_viewer_reconnect (some v) (some host) (some port) password lib).1 = some v2
        ∧ v2.display = some d2
        ∧ d2.scaling = d.scaling
        ∧ d2.resize_guest = d.resize_guest
        ∧ (∀ old, v.session = some old →
            d2.id = lib.next_id + 1 ∧ d2.session = lib.next_id
              ∧ Call.spice_display_new lib.next_id (lib.next_id + 1)
                  ∈ (grv_viewer_reconnect (some v) (some host) (some port) password
                      lib).2.calls) := by
  cases hs : v.session with
  | none =>
    rw [grv_viewer_reconnect_noop _ _ _ _ _ (Or.inr (Or.inr (Or.inr ⟨v, rfl, hs⟩)))]
    exact ⟨v, d, rfl, hd, rfl, rfl, fun old h => absurd h (by simp)⟩
  | some old =>
    obtain ⟨pw, extra, hr⟩ := grv_viewer_reconnect_ok v old host port password lib hs
    rw [hr]
    refine ⟨_, _, rfl, rfl, by simp [hd], by simp [hd], ?_⟩
    intro old2 _
    exact ⟨rfl, rfl, by simp⟩

/-- C3 at the spec's example: preferences (true, false) before the reconnect give
(true, false) on the surface installed by it. -/
theorem reconnect_preserves_display_preferences_witness :
    ∃ v2 d2,
      (grv_viewer_reconnect (some exampleToggled) (some "10.0.0.6".toList)
          (some "5901".toList) none exampleLibBuilt).1 = some v2
        ∧ v2.display = some d2
        ∧ d2.scaling = true
        ∧ d2.resize_guest = false
        ∧ (∀ old, exampleToggled.session = some old →
            d2.id = 3 ∧ d2.session = 2
              ∧ Call.spice_display_new 2 3
                  ∈ (grv_viewer_reconnect (some exampleToggled) (some "10.0.0.6".toList)
                      (some "5901".toList) none exampleLibBuilt).2.calls) :=
  reconnect_preserves_display_preferences exampleToggled
    { id := 1, session := 0, scaling := true, resize_guest := false,
      alloc_width := 1, alloc_height := 1 }
    "10.0.0.6".toList "5901".toList none exampleLibBuilt (by decide)

/-- C4: the deferred resize push sends a size to the guest only when, at the time it runs,
the Display Surface exists, the agent of its channel is connected and the surface's
allocated width and height are both greater than 1; it then enables the display and pushes
exactly that width and height, these two calls and no other. In every other case it
issues no call at all. It always returns `G_SOURCE_REMOVE`. -/
theorem deferred_push_only_when_valid (ctx : AgentResizeCtx) (v : GrvViewer) (lib : Lib) :
    (∀ d, v.display = some d → lib.agent_connected ctx.channel.id = true →
        1 < d.alloc_width → 1 < d.alloc_height →
        (idle_push_display_size ctx v lib).2 =
          { lib with calls := lib.calls ++
              [Call.spice_main_channel_update_display_enabled ctx.channel.id 0 true false,
               Call.spice_main_channel_update_display ctx.channel.id 0 0 0
                 d.alloc_width d.alloc_height true] })
      ∧ (¬ (∃ d, v.display = some d ∧ lib.agent_connected ctx.channel.id = true
              ∧ 1 < d.alloc_width ∧ 1 < d.alloc_height) →
          (idle_push_display_size ctx v lib).2 = lib)
      ∧ (idle_push_display_size ctx v lib).1 = G_SOURCE_REMOVE := by
  refine ⟨?_, ?_, ?_⟩
  · intro d hd ha hw hh
    have hn : ¬ (d.alloc_width ≤ 1 ∨ d.alloc_height ≤ 1) := by omega
    simp [idle_push_display_size, hd, ha, hn, Lib.call]
  · intro hno
    unfold idle_push_display_size
    cases hd : v.display with
    | none => rfl
    | some d =>
      cases ha : lib.agent_connected ctx.channel.id with
      | false => simp [ha]
      | true =>
        have hle : d.alloc_width ≤ 1 ∨ d.alloc_height ≤ 1 := by
          by_contra hc
          exact hno ⟨d, hd, ha, by omega, by omega⟩
        simp [ha, hle]
  · unfold idle_push_display_size
    dsimp only
    repeat' split
    all_goals rfl

/-- C4 at a laid-out display of 1024 x 768 with the agent connected: the push carries
1024 and 768. -/
theorem deferred_push_only_when_valid_witness :
    (idle_push_display_size { channel := exampleMain } exampleLaidOut exampleAgentLib).2.calls
      = [Call.spice_main_channel_update_display_enabled 5 0 true false,
         Call.spice_main_channel_update_display 5 0 0 0 1024 768 true] :=
  congrArg Lib.calls
    ((deferred_push_only_when_valid { channel := exampleMain } exampleLaidOut
        exampleAgentLib).1
      { id := 1, session := 0, scaling := false, resize_guest := true,
        alloc_width := 1024, alloc_height := 768 }
      (by decide) (by decide) (by decide) (by decide))

/-- C5: key-combo dispatch. The catalog has 11 entries, each with 1 to 4 keys in a
4-slot array. For every index N with 0 <= N < 11, `on_send_key` makes exactly one call,
`spice_display_send_keys` on the viewer's Display Surface, passing the key array of
`KEY_COMBOS[N]` with its `nkeys` (so its first `nkeys` keys, in stored order) as a click
event; for every index outside that range, negative ones included, and whatever the
viewer, it makes no call. -/
theorem send_key_dispatch (v : GrvViewer) (idx : Int) (lib : Lib) :
    N_KEY_COMBOS = 11
      ∧ (∀ combo ∈ KEY_COMBOS, 1 ≤ combo.nkeys ∧ combo.nkeys ≤ 4 ∧ combo.keyvals.length = 4)
      ∧ (0 ≤ idx → idx < N_KEY_COMBOS →
          ∃ combo, KEY_COMBOS[idx.toNat]? = some combo
            ∧ on_send_key (some v) idx lib =
                { lib with calls := lib.calls ++
                    [Call.spice_display_send_keys (v.display.map SpiceDisplay.id)
                      combo.keyvals combo.nkeys SpiceDisplayKeyEvent.CLICK] })
      ∧ (¬ (0 ≤ idx ∧ idx < N_KEY_COMBOS) → ∀ ov, on_send_key ov idx lib = lib) := by
  refine ⟨by decide, by decide, ?_, ?_⟩
  · intro h0 h1
    have hlt : idx.toNat < KEY_COMBOS.length := by
      have : (KEY_COMBOS.length : Int) = N_KEY_COMBOS := rfl
      omega
    refine ⟨KEY_COMBOS[idx.toNat], List.getElem?_eq_getElem hlt, ?_⟩
    have hg : ¬ (idx < 0 ∨ idx ≥ N_KEY_COMBOS) := by omega
    simp [on_send_key, hg, List.getElem?_eq_getElem hlt, Lib.call]
  · intro hout ov
    have hg : idx < 0 ∨ idx ≥ N_KEY_COMBOS := by omega
    cases ov with
    | none => rfl
    | some v0 => simp [on_send_key, hg]

/-- C5 at index 0 (Ctrl+Alt+Del) on the example viewer: one click of Control_L, Alt_L,
Delete. -/
theorem send_key_dispatch_witness :
    ∃ combo, KEY_COMBOS[(0 : Int).toNat]? = some combo
      ∧ on_send_key (some exampleViewer) 0 exampleLibBuilt =
          { exampleLibBuilt with calls := exampleLibBuilt.calls ++
              [Call.spice_display_send_keys (exampleViewer.display.map SpiceDisplay.id)
                combo.keyvals combo.nkeys SpiceDisplayKeyEvent.CLICK] } :=
  (send_key_dispatch exampleViewer 0 exampleLibBuilt).2.2.1 (by decide) (by decide)

/-- C6, as the code has it: for every viewer that has an action callback installed and
every prior View State, dispatching PowerOn (`on_action` with code 0) leaves the
powered-off page shown with title "Starting VM" and subtitle "Waiting for console to
reconnect...", whatever the external callback does to the viewer or the library state. -/
theorem power_on_shows_starting_page
    (invoke : Nat → Int → Nat → GrvViewer × Lib → GrvViewer × Lib)
    (v : GrvViewer) (fn : Nat) (lib : Lib) (hfn : v.action_fn = some fn) :
    ∃ v2, (on_action invoke GRV_ACTION_POWER_ON (some v) lib).1 = some v2
      ∧ v2.stack_page = Page.powered_off
      ∧ viewState v2 = ViewState.Status "Starting VM".toList
          "Waiting for console to reconnect...".toList := by
  have hrun : on_action invoke GRV_ACTION_POWER_ON (some v) lib =
      (some { (invoke fn GRV_ACTION_POWER_ON v.action_data
                (v, lib.call [Call.action_fn fn GRV_ACTION_POWER_ON v.action_data])).1 with
              status_title := "Starting VM".toList,
              status_sub := "Waiting for console to reconnect...".toList,
              stack_page := Page.powered_off },
       (invoke fn GRV_ACTION_POWER_ON v.action_data
          (v, lib.call [Call.action_fn fn GRV_ACTION_POWER_ON v.action_data])).2) := by
    simp [on_action, hfn]
  rw [hrun]
  exact ⟨_, rfl, rfl, rfl⟩

/-- C6 on the example viewer in the powered-off state, with a callback that itself forces
the standard powered-off page. -/
theorem power_on_shows_starting_page_witness :
    ∃ v2, (on_action (fun _ _ _ w => (grv_viewer_set_powered_off w.1, w.2))
              GRV_ACTION_POWER_ON (some (grv_viewer_set_powered_off exampleViewer))
              exampleLibBuilt).1 = some v2
      ∧ v2.stack_page = Page.powered_off
      ∧ viewState v2 = ViewState.Status "Starting VM".toList
          "Waiting for console to reconnect...".toList :=
  power_on_shows_starting_page (fun _ _ _ w => (grv_viewer_set_powered_off w.1, w.2))
    (grv_viewer_set_powered_off exampleViewer) 7 exampleLibBuilt (by decide)

/-- C6, the claim as stated fails: on a viewer built without an action callback
(`action_fn` NULL) the guard of `on_action` skips the whole body, so dispatching PowerOn
changes nothing and the View State stays Connected. -/
theorem power_on_without_callback_changes_nothing :
    (on_action (fun _ _ _ w => w) GRV_ACTION_POWER_ON (some exampleNoCallback)
        exampleLibBuilt).1 = some exampleNoCallback
      ∧ viewState exampleNoCallback = ViewState.Connected
      ∧ viewState exampleNoCallback
          ≠ ViewState.Status "Starting VM".toList
              "Waiting for console to reconnect...".toList := by
  decide

/-- C7: single-step classification of a Main-Channel event by `on_channel_event`. Closed
shows the powered-off page with title "VM Powered Off" and subtitle "The virtual machine
has stopped."; every event code at or above `SPICE_CHANNEL_ERROR_CONNECT` shows the
powered-off page with title "Connection Lost" and subtitle "The SPICE connection was
interrupted."; opened shows the display page. -/
theorem main_channel_event_classification (cid : Nat) (v : GrvViewer) :
    ((on_channel_event { id := cid, is_main := true } SPICE_CHANNEL_CLOSED v).stack_page
          = Page.powered_off
        ∧ (on_channel_event { id := cid, is_main := true } SPICE_CHANNEL_CLOSED v).status_title
          = "VM Powered Off".toList
        ∧ (on_channel_event { id := cid, is_main := true } SPICE_CHANNEL_CLOSED v).status_sub
          = "The virtual machine has stopped.".toList)
      ∧ (∀ e : Int, SPICE_CHANNEL_ERROR_CONNECT ≤ e →
          (on_channel_event { id := cid, is_main := true } e v).stack_page = Page.powered_off
          ∧ (on_channel_event { id := cid, is_main := true } e v).status_title
            = "Connection Lost".toList
          ∧ (on_channel_event { id := cid, is_main := true } e v).status_sub
            = "The SPICE connection was interrupted.".toList)
      ∧ (on_channel_event { id := cid, is_main := true } SPICE_CHANNEL_OPENED v).stack_page
          = Page.display := by
  refine ⟨?_, ?_, ?_⟩
  · rw [on_channel_event_main]
    exact show_powered_off_page v _ _
  · intro e he
    have h1 : e ≠ SPICE_CHANNEL_OPENED := by
      intro h; rw [h] at he; exact absurd he (by decide)
    have h2 : e ≠ SPICE_CHANNEL_CLOSED := by
      intro h; rw [h] at he; exact absurd he (by decide)
    have hc : classify e = EventClass.error := by simp [classify, h1, h2, he]
    rw [on_channel_event_main, hc]
    exact show_powered_off_page v _ _
  · rw [on_channel_event_main]
    exact show_display_page v

/-- C7 at an I/O error event on the example viewer. -/
theorem main_channel_event_classification_witness :
    (on_channel_event exampleMain SPICE_CHANNEL_ERROR_IO exampleViewer).stack_page
        = Page.powered_off
      ∧ (on_channel_event exampleMain SPICE_CHANNEL_ERROR_IO exampleViewer).status_title
        = "Connection Lost".toList
      ∧ (on_channel_event exampleMain SPICE_CHANNEL_ERROR_IO exampleViewer).status_sub
        = "The SPICE connection was interrupted.".toList :=
  (main_channel_event_classification 5 exampleViewer).2.1 SPICE_CHANNEL_ERROR_IO (by decide)

/-- C8, as the code has it: for every window title, after a Main-Channel opened event the
display page is shown; a title made of a non-empty text t followed by the suffix becomes
t, one occurrence of the suffix being stripped, so that it no longer ends with the suffix
whenever t does not; a title that does not end with the suffix, or an absent one, is left
as it is. -/
theorem opened_strips_one_suffix (cid : Nat) (v : GrvViewer) :
    (on_channel_event { id := cid, is_main := true } SPICE_CHANNEL_OPENED v).stack_page
        = Page.display
      ∧ (∀ t : CStr, t ≠ [] → v.window_title = some (t ++ POWERED_OFF_SUFFIX) →
          (on_channel_event { id := cid, is_main := true } SPICE_CHANNEL_OPENED v).window_title
            = some t)
      ∧ (∀ t : CStr, t ≠ [] → g_str_has_suffix t POWERED_OFF_SUFFIX = false →
          v.window_title = some (t ++ POWERED_OFF_SUFFIX) →
          ∃ cur, (on_channel_event { id := cid, is_main := true } SPICE_CHANNEL_OPENED
                    v).window_title = some cur
            ∧ g_str_has_suffix cur POWERED_OFF_SUFFIX = false)
      ∧ (∀ cur : CStr, v.window_title = some cur →
          g_str_has_suffix cur POWERED_OFF_SUFFIX = false →
          (on_channel_event { id := cid, is_main := true } SPICE_CHANNEL_OPENED v).window_title
            = some cur)
      ∧ (v.window_title = none →
          (on_channel_event { id := cid, is_main := true } SPICE_CHANNEL_OPENED v).window_title
            = none) := by
  have hev : on_channel_event { id := cid, is_main := true } SPICE_CHANNEL_OPENED v
      = show_display v := by
    rw [on_channel_event_main]; rfl
  rw [hev]
  refine ⟨show_display_page v, ?_, ?_, ?_, ?_⟩
  · exact fun t ht hcur => show_display_title_strip v t ht hcur
  · exact fun t ht hns hcur => ⟨t, show_display_title_strip v t ht hcur, hns⟩
  · exact fun cur hcur hns => show_display_title_of_no_suffix v cur hcur hns
  · exact fun hcur => show_display_title_none v hcur

/-- C8 at the title `vm1 [Powered Off]`: the opened event restores `vm1`. -/
theorem opened_strips_one_suffix_witness :
    (on_channel_event exampleMain SPICE_CHANNEL_OPENED
        { exampleViewer with window_title := some "vm1 [Powered Off]".toList }).window_title
      = some "vm1".toList :=
  (opened_strips_one_suffix 5
      { exampleViewer with window_title := some "vm1 [Powered Off]".toList }).2.1
    "vm1".toList (by decide) (by decide)

/-- C8, the claim as stated fails: after the opened event the title can still end with
the suffix. A title carrying the suffix twice loses one occurrence and keeps the other;
and a viewer whose title is empty gets the title " [Powered Off]" from a closed event,
which the opened event that follows leaves as it is. -/
theorem opened_can_leave_suffix_on_title :
    (on_channel_event exampleMain SPICE_CHANNEL_OPENED
        { exampleViewer with
          window_title := some "vm1 [Powered Off] [Powered Off]".toList }).window_title
        = some "vm1 [Powered Off]".toList
      ∧ g_str_has_suffix "vm1 [Powered Off]".toList POWERED_OFF_SUFFIX = true
      ∧ (processEvents exampleMain [SPICE_CHANNEL_CLOSED, SPICE_CHANNEL_OPENED]
          exampleUntitled).window_title = some " [Powered Off]".toList
      ∧ (processEvents exampleMain [SPICE_CHANNEL_CLOSED, SPICE_CHANNEL_OPENED]
          exampleUntitled).stack_page = Page.display
      ∧ g_str_has_suffix " [Powered Off]".toList POWERED_OFF_SUFFIX = true := by
  decide

/-- C9, as the code has it: after `grv_viewer_reconnect` returns for a viewer with a
current Session `old` (whose objects were allocated earlier) and a non-absent host and
port, the old main channel reference is gone: the reference is the last main channel the
library announced on the new Session inside `spice_session_connect`, stored by
`on_channel_new`, and is empty when the library announced no main channel inside that
call. The current Session is the one created in this call, different from `old` and
carrying the supplied host and port; the Display Surface is the one created in this call,
different from the old surface and bound to the new Session. And in every step of the
viewer, a main channel reference `c` present after the step was present before it or is
a main channel that `on_channel_new` observed, as a step of its own or announced inside
a connect call made during the step. -/
theorem reconnect_installs_fresh_session (v : GrvViewer) (old : SpiceSession)
    (host port : CStr) (password : Option CStr) (lib : Lib)
    (hs : v.session = some old) (hwf : idsAllocated v lib = true) :
    (∃ v2 s2 d2,
        (grv_viewer_reconnect (some v) (some host) (some port) password lib).1 = some v2
          ∧ v2.main_channel = ((lib.announce s2.id).filter SpiceChannel.is_main).getLast?
          ∧ ((∀ c ∈ lib.announce s2.id, c.is_main = false) → v2.main_channel = none)
          ∧ (∀ c, v2.main_channel = some c → c.is_main = true ∧ c ∈ lib.announce s2.id)
          ∧ v2.session = some s2
          ∧ s2.host = some host ∧ s2.port = some port
          ∧ s2.id = lib.next_id ∧ s2.id ≠ old.id
          ∧ Call.spice_session_new s2.id
              ∈ (grv_viewer_reconnect (some v) (some host) (some port) password lib).2.calls
          ∧ v2.display = some d2
          ∧ d2.session = s2.id
          ∧ d2.id = lib.next_id + 1
          ∧ (∀ d, v.display = some d → d2.id ≠ d.id)
          ∧ Call.spice_display_new s2.id d2.id
              ∈ (grv_viewer_reconnect (some v) (some host) (some port) password lib).2.calls)
      ∧ (∀ (op : Op) (w : GrvViewer × Lib) (c : SpiceChannel),
          (step op w).1.main_channel = some c →
          w.1.main_channel = some c
            ∨ (c.is_main = true
                ∧ (op = Op.channel_new c ∨ ∃ sid, c ∈ w.2.announce sid))) := by
  refine ⟨?_, step_main_channel⟩
  obtain ⟨pw, extra, hr⟩ := grv_viewer_reconnect_ok v old host port password lib hs
  rw [hr]
  have hold : old.id < lib.next_id := by
    simpa [idsAllocated, hs] using (Bool.and_eq_true_iff.1 hwf).1
  refine ⟨_, _, _, rfl, rfl, ?_, ?_, rfl, rfl, rfl, rfl, ?_, by simp, rfl, rfl, rfl, ?_,
    by simp⟩
  · intro hnone
    dsimp only
    have hf : (lib.announce lib.next_id).filter SpiceChannel.is_main = [] := by
      rw [List.filter_eq_nil_iff]
      intro c hc
      simp [hnone c hc]
    rw [hf]
    rfl
  · intro c hc
    have hmem := List.mem_of_getLast?_eq_some hc
    rw [List.mem_filter] at hmem
    exact ⟨hmem.2, hmem.1⟩
  · exact fun h => absurd h (by dsimp only; omega)
  · intro d hd
    have hdl : d.id < lib.next_id := by
      simpa [idsAllocated, hd] using (Bool.and_eq_true_iff.1 hwf).2
    dsimp only
    omega

/-- C9 on the example viewer, reconnecting to 10.0.0.6:5901 with a library that announces
the new session's main channel inside the connect call: at return the reference is the
last main channel announced on session 2. -/
theorem reconnect_installs_fresh_session_witness :
    ∃ v2 s2 d2,
      (grv_viewer_reconnect (some exampleViewer) (some "10.0.0.6".toList)
          (some "5901".toList) none exampleLibBuilt).1 = some v2
        ∧ v2.main_channel
            = ((exampleLibBuilt.announce s2.id).filter SpiceChannel.is_main).getLast?
        ∧ ((∀ c ∈ exampleLibBuilt.announce s2.id, c.is_main = false) →
            v2.main_channel = none)
        ∧ (∀ c, v2.main_channel = some c →
            c.is_main = true ∧ c ∈ exampleLibBuilt.announce s2.id)
        ∧ v2.session = some s2
        ∧ s2.host = some "10.0.0.6".toList ∧ s2.port = some "5901".toList
        ∧ s2.id = 2 ∧ s2.id ≠ 0
        ∧ Call.spice_session_new s2.id
            ∈ (grv_viewer_reconnect (some exampleViewer) (some "10.0.0.6".toList)
                (some "5901".toList) none exampleLibBuilt).2.calls
        ∧ v2.display = some d2
        ∧ d2.session = s2.id
        ∧ d2.id = 3
        ∧ (∀ d, exampleViewer.display = some d → d2.id ≠ d.id)
        ∧ Call.spice_display_new s2.id d2.id
            ∈ (grv_viewer_reconnect (some exampleViewer) (some "10.0.0.6".toList)
                (some "5901".toList) none exampleLibBuilt).2.calls :=
  (reconnect_installs_fresh_session exampleViewer exampleSession "10.0.0.6".toList
    "5901".toList none exampleLibBuilt (by decide) (by decide)).1

/-- C9, the claim as stated fails: with a library that, like spice-gtk, announces the new
session's main channel inside `spice_session_connect`, the handler `on_channel_new`
connected a few lines earlier runs before `grv_viewer_reconnect` returns, and at return
the main channel reference holds that channel, not NULL. -/
theorem reconnect_returns_with_main_channel :
    exampleWithMain.session = some exampleSession
      ∧ ((grv_viewer_reconnect (some exampleWithMain) (some "10.0.0.6".toList)
            (some "5901".toList) none exampleLibBuilt).1.bind GrvViewer.main_channel)
          = some { id := 102, is_main := true }
      ∧ ((grv_viewer_reconnect (some exampleWithMain) (some "10.0.0.6".toList)
            (some "5901".toList) none exampleLibBuilt).1.bind GrvViewer.main_channel)
          ≠ none := by
  decide

/-- C10: `grv_viewer_reconnect` is a silent no-op on parameter errors. If the viewer is
absent, or the host is absent, or the port is absent, the call returns the viewer as it
was (every field: Session, Display Surface, Main Channel reference, status labels, page,
title) and the library state as it was: no call is issued (no disconnect, no session
creation, no connect) and no object is created. -/
theorem reconnect_parameter_error_is_noop (v : Option GrvViewer)
    (host port password : Option CStr) (lib : Lib)
    (h : v = none ∨ host = none ∨ port = none) :
    grv_viewer_reconnect v host port password lib = (v, lib)
      ∧ (grv_viewer_reconnect v host port password lib).2.calls = lib.calls := by
  have hr : grv_viewer_reconnect v host port password lib = (v, lib) := by
    rcases h with h | h | h
    · exact grv_viewer_reconnect_noop _ _ _ _ _ (Or.inl h)
    · exact grv_viewer_reconnect_noop _ _ _ _ _ (Or.inr (Or.inl h))
    · exact grv_viewer_reconnect_noop _ _ _ _ _ (Or.inr (Or.inr (Or.inl h)))
  exact ⟨hr, by rw [hr]⟩

/-- C10 on the example viewer with the host absent. -/
theorem reconnect_parameter_error_is_noop_witness :
    grv_viewer_reconnect (some exampleViewer) none (some "5901".toList) none exampleLibBuilt
        = (some exampleViewer, exampleLibBuilt)
      ∧ (grv_viewer_reconnect (some exampleViewer) none (some "5901".toList) none
          exampleLibBuilt).2.calls = exampleLibBuilt.calls :=
  reconnect_parameter_error_is_noop (some exampleViewer) none (some "5901".toList) none
    exampleLibBuilt (Or.inr (Or.inl rfl))

/-- C11: events on non-Main channels are ignored entirely. For every viewer and every
event code, `on_channel_event` invoked for a channel that is not a main channel returns
the viewer as it was: the page shown, the status title and subtitle and the window title
are unchanged, and so is the View State. -/
theorem non_main_channel_events_ignored (cid : Nat) (e : Int) (v : GrvViewer) :
    on_channel_event { id := cid, is_main := false } e v = v
      ∧ (on_channel_event { id := cid, is_main := false } e v).stack_page = v.stack_page
      ∧ (on_channel_event { id := cid, is_main := false } e v).status_title = v.status_title
      ∧ (on_channel_event { id := cid, is_main := false } e v).status_sub = v.status_sub
      ∧ (on_channel_event { id := cid, is_main := false } e v).window_title = v.window_title
      ∧ viewState (on_channel_event { id := cid, is_main := false } e v) = viewState v := by
  have h : on_channel_event { id := cid, is_main := false } e v = v := by
    simp [on_channel_event]
  rw [h]
  exact ⟨rfl, rfl, rfl, rfl, rfl, rfl⟩

/-- C12, as the code has it: when the user toggles auto-resize-guest
(`on_resize_guest_toggled`) the Display Surface's resize-guest preference is set to the
toggle's value and nothing else in the viewer changes; a deferred size push is scheduled
exactly when the toggle is being enabled while a main channel reference is tracked
(`main_channel` not NULL), for that channel; no push is scheduled when disabling or when
no main channel is tracked. Whether the agent is connected is looked at only when the
deferred push runs, which issues no call if it is not. -/
theorem resize_guest_toggle_schedules_on_main_channel (v : GrvViewer) (active : Bool)
    (lib : Lib) :
    (∃ v2, (on_resize_guest_toggled (some v) active lib).1 = some v2
        ∧ v2 = { v with display := v2.display }
        ∧ (∀ d, v.display = some d → v2.display = some { d with resize_guest := active })
        ∧ (v.display = none → v2.display = none))
      ∧ (∀ c, active = true → v.main_channel = some c →
          (on_resize_guest_toggled (some v) active lib).2
            = { lib with calls := lib.calls ++ [Call.g_idle_add { channel := c }] })
      ∧ (active = false ∨ v.main_channel = none →
          (on_resize_guest_toggled (some v) active lib).2 = lib)
      ∧ (∀ (ctx : AgentResizeCtx) (v3 : GrvViewer) (lib3 : Lib),
          lib3.agent_connected ctx.channel.id = false →
          (idle_push_display_size ctx v3 lib3).2 = lib3) := by
  refine ⟨?_, ?_, ?_, ?_⟩
  · cases active <;> cases hm : v.main_channel <;> cases hd : v.display <;>
      simp [on_resize_guest_toggled, hm, hd]
  · intro c ha hm
    subst ha
    simp [on_resize_guest_toggled, hm, Lib.call]
  · rintro (ha | hm)
    · subst ha
      simp [on_resize_guest_toggled]
    · cases active <;> simp [on_resize_guest_toggled, hm]
  · intro ctx v3 lib3 hna
    unfold idle_push_display_size
    cases v3.display with
    | none => rfl
    | some d => simp [hna]

/-- C12 on the example viewer tracking main channel 5, whose agent is connected:
enabling the toggle schedules one deferred push for that channel. -/
theorem resize_guest_toggle_schedules_on_main_channel_witness :
    (on_resize_guest_toggled (some exampleWithMain) true exampleAgentLib).2.calls
      = [Call.g_idle_add { channel := exampleMain }] :=
  congrArg Lib.calls
    ((resize_guest_toggle_schedules_on_main_channel exampleWithMain true exampleAgentLib).2.1
      exampleMain rfl (by decide))

/-- C12, the claim as stated fails: the example viewer tracks main channel 5, no agent is
connected on it, and enabling the toggle still schedules a deferred push, because the
handler tests the main channel reference and not the agent. -/
theorem resize_guest_toggle_schedules_without_agent :
    exampleWithMain.main_channel = some exampleMain
      ∧ exampleLibBuilt.agent_connected exampleMain.id = false
      ∧ (on_resize_guest_toggled (some exampleWithMain) true exampleLibBuilt).2.calls
          = exampleLibBuilt.calls ++ [Call.g_idle_add { channel := exampleMain }] := by
  decide

/-- C13: title round trip. For every non-empty window title that does not end with
" [Powered Off]", a Main-Channel closed event followed by a Main-Channel opened event
restores exactly the original title and shows the display page; the same holds of
`show_powered_off` with any copy followed by `show_display`. -/
theorem closed_then_opened_restores_title (cid : Nat) (v : GrvViewer) (t : CStr)
    (ht : t ≠ []) (hns : g_str_has_suffix t POWERED_OFF_SUFFIX = false)
    (hcur : v.window_title = some t) :
    (processEvents { id := cid, is_main := true }
        [SPICE_CHANNEL_CLOSED, SPICE_CHANNEL_OPENED] v).window_title = some t
      ∧ (processEvents { id := cid, is_main := true }
          [SPICE_CHANNEL_CLOSED, SPICE_CHANNEL_OPENED] v).stack_page = Page.display
      ∧ (processEvents { id := cid, is_main := true } [SPICE_CHANNEL_CLOSED] v).window_title
          = some (t ++ POWERED_OFF_SUFFIX)
      ∧ ∀ title_text sub_text : CStr,
          (show_display (show_powered_off v title_text sub_text)).window_title = some t := by
  have hround : ∀ title_text sub_text : CStr,
      (show_display (show_powered_off v title_text sub_text)).window_title = some t :=
    fun title_text sub_text =>
      show_display_title_strip _ t ht
        (show_powered_off_title_of_no_suffix v title_text sub_text t hcur hns)
  have hclosed : on_channel_event { id := cid, is_main := true } SPICE_CHANNEL_CLOSED v
      = show_powered_off v "VM Powered Off".toList
          "The virtual machine has stopped.".toList := by
    rw [on_channel_event_main]; rfl
  have hopened : ∀ w : GrvViewer,
      on_channel_event { id := cid, is_main := true } SPICE_CHANNEL_OPENED w
        = show_display w := by
    intro w; rw [on_channel_event_main]; rfl
  have hseq : processEvents { id := cid, is_main := true }
      [SPICE_CHANNEL_CLOSED, SPICE_CHANNEL_OPENED] v
        = show_display (show_powered_off v "VM Powered Off".toList
            "The virtual machine has stopped.".toList) := by
    simp only [processEvents, List.foldl_cons, List.foldl_nil]
    rw [hclosed, hopened]
  have hone : processEvents { id := cid, is_main := true } [SPICE_CHANNEL_CLOSED] v
      = show_powered_off v "VM Powered Off".toList
          "The virtual machine has stopped.".toList := by
    simp only [processEvents, List.foldl_cons, List.foldl_nil]
    rw [hclosed]
  refine ⟨?_, ?_, ?_, hround⟩
  · rw [hseq]; exact hround _ _
  · rw [hseq]; exact show_display_page _
  · rw [hone]; exact show_powered_off_title_of_no_suffix v _ _ t hcur hns

/-- C13 on the example viewer titled `vm1`: closed then opened leaves `vm1`. -/
theorem closed_then_opened_restores_title_witness :
    (processEvents exampleMain [SPICE_CHANNEL_CLOSED, SPICE_CHANNEL_OPENED]
        exampleViewer).window_title = some "vm1".toList :=
  (closed_then_opened_restores_title 5 exampleViewer "vm1".toList (by decide) (by decide)
    rfl).1

end Grv
